import Mathlib

/-!
# DigiDiary — per-entry password protection and lockout engine

Shallow embedding of the journal password-protection subsystem of the
DigiDiary server:

* the `Journal` mongoose model (`encryptionPassword` with `select: false`,
  `passwordFailedAttempts`, `passwordLockoutUntil`, the `pre('save')`
  hashing hook, `comparePassword`, `verifyPasswordAndHandleLockout`), and
* the journal controller (`createJournal`, `getJournals` list
  sanitization, `getJournal`, `updateJournal`, `verifyJournalPassword`
  with action routing, `getJournalStats`).

Documents are modelled as a `Stored` record; the database is an
association list from entry id to record; time is a natural number of
milliseconds.  bcrypt is modelled by an injective tagging function:
`bcryptCompare c h` succeeds exactly when `h` is the hash of `c`, which
is the functional contract the code relies on.
-/

namespace DigiDiary

/-- Lockout duration used by the controller and the model:
`3 * 60 * 60 * 1000` milliseconds (3 hours). -/
def LOCKOUT_MS : Nat := 3 * 60 * 60 * 1000

/-- Model of `bcrypt.hash` (salted one-way hash).  Functionally the code
only depends on `bcrypt.compare c (bcrypt.hash p) = (c = p)`, which this
injective tagging realises. -/
def bcryptHash (password : String) : String := "bcrypt$" ++ password

/-- Model of `bcrypt.compare candidate hashed`. -/
def bcryptCompare (candidate hashed : String) : Bool :=
  hashed == bcryptHash candidate

/-- One stored journal document (the fields the protection engine and the
serialization paths touch).  `encryptionPassword`, when present, is the
stored hash; `passwordLockoutUntil` is a millisecond timestamp. -/
structure Stored where
  userId : Nat
  title : String
  content : String
  media : List String
  moodRating : Nat
  isEncrypted : Bool
  encryptionPassword : Option String
  passwordFailedAttempts : Nat
  passwordLockoutUntil : Option Nat
  tags : List String
  isPublic : Bool
deriving Repr, DecidableEq

/-- `journalSchema.methods.comparePassword`: JS returns `false` when
`this.encryptionPassword` is falsy (absent or the empty string),
otherwise defers to `bcrypt.compare`. -/
def comparePassword (j : Stored) (candidate : String) : Bool :=
  match j.encryptionPassword with
  | none => false
  | some h => if h = "" then false else bcryptCompare candidate h

/-- `journalSchema.pre('save')`: hash `encryptionPassword` when it was
modified in this save and is truthy. -/
def preSaveHashPassword (modified : Bool) (j : Stored) : Stored :=
  if modified = false then j
  else
    match j.encryptionPassword with
    | none => j
    | some p => if p = "" then j else { j with encryptionPassword := some (bcryptHash p) }

/-- Result of `verifyPasswordAndHandleLockout`: either the 429 error the
method throws while locked (carrying the remaining minutes), or the
match verdict together with the document as saved. -/
inductive LockoutResult
  | lockedOut (remainingMinutes : Nat)
  | done (isMatch : Bool) (updated : Stored)
deriving Repr, DecidableEq

/-- Body of `verifyPasswordAndHandleLockout` after the lockout gate:
on a match, reset the counters when any failures were recorded; on a
mismatch, increment `passwordFailedAttempts` and set a 3-hour lockout
when the new count reaches 3. -/
def lockoutVerifyCore (j : Stored) (candidate : String) (now : Nat) : LockoutResult :=
  if comparePassword j candidate then
    if j.passwordFailedAttempts > 0 then
      LockoutResult.done true { j with passwordFailedAttempts := 0, passwordLockoutUntil := none }
    else
      LockoutResult.done true j
  else
    let n := j.passwordFailedAttempts + 1
    if n ≥ 3 then
      LockoutResult.done false
        { j with passwordFailedAttempts := n, passwordLockoutUntil := some (now + LOCKOUT_MS) }
    else
      LockoutResult.done false { j with passwordFailedAttempts := n }

/-- `journalSchema.methods.verifyPasswordAndHandleLockout`: throw a 429
(with `ceil((lockoutUntil - now)/60000)` minutes remaining) while
`passwordLockoutUntil` is set and strictly in the future, otherwise run
the verification/counter logic. -/
def verifyPasswordAndHandleLockout (j : Stored) (candidate : String) (now : Nat) : LockoutResult :=
  match j.passwordLockoutUntil with
  | some t =>
    if now < t then LockoutResult.lockedOut ((t - now + 59999) / 60000)
    else lockoutVerifyCore j candidate now
  | none => lockoutVerifyCore j candidate now

/-- The database: association list from entry id to stored document. -/
abbrev Store : Type := List (Nat × Stored)

/-- `Journal.findById`. -/
def findById : Store → Nat → Option Stored
  | [], _ => none
  | (k, v) :: rest, id => if k = id then some v else findById rest id

/-- Persisting a document (`journal.save()`): replace the record stored
under `id`. -/
def saveTo : Store → Nat → Stored → Store
  | [], _, _ => []
  | (k, v) :: rest, id, j =>
    if k = id then (k, j) :: saveTo rest id j else (k, v) :: saveTo rest id j

/-- `Journal.findByIdAndDelete`. -/
def deleteById : Store → Nat → Store
  | [], _ => []
  | (k, v) :: rest, id =>
    if k = id then deleteById rest id else (k, v) :: deleteById rest id

/-- The three routed actions of the verify-password endpoint. -/
inductive Action
  | view
  | edit
  | delete
deriving Repr, DecidableEq

/-- Outcomes of `POST /api/journal/:id/verify-password`, one constructor
per `res.status(...).json(...)` shape of `verifyJournalPassword`. -/
inductive VPOutcome
  | noPassword
  | notFound
  | forbidden
  | notProtected
  | locked (remainingHours : Nat) (lockoutUntil : Nat)
  | attemptsExceeded (lockoutUntil : Nat)
  | invalidPassword (remainingAttempts : Nat)
  | success (action : Action) (deleted : Bool)
deriving Repr, DecidableEq

/-- `true` exactly on the `success` outcome. -/
def VPOutcome.isSuccess : VPOutcome → Bool
  | VPOutcome.success _ _ => true
  | _ => false

/-- `verifyJournalPassword` past the lockout gate: compare the password;
on success reset the counters (when any failures were recorded) and, for
`delete`, remove the entry in the same call; on mismatch increment the
counter, locking for 3 hours when it reaches 3, and report the remaining
attempts (`3 - failedAttempts`) otherwise.  Every counter update is
persisted (in the returned store) before the outcome is produced. -/
def verifyAfterGate (db : Store) (id : Nat) (j : Stored) (password : String)
    (action : Action) (now : Nat) : VPOutcome × Store :=
  if comparePassword j password then
    let db1 :=
      if j.passwordFailedAttempts > 0 then
        saveTo db id { j with passwordFailedAttempts := 0, passwordLockoutUntil := none }
      else db
    if action = Action.delete then
      (VPOutcome.success Action.delete true, deleteById db1 id)
    else
      (VPOutcome.success action false, db1)
  else
    let n := j.passwordFailedAttempts + 1
    if n ≥ 3 then
      (VPOutcome.attemptsExceeded (now + LOCKOUT_MS),
       saveTo db id { j with passwordFailedAttempts := n, passwordLockoutUntil := some (now + LOCKOUT_MS) })
    else
      (VPOutcome.invalidPassword (3 - n), saveTo db id { j with passwordFailedAttempts := n })

/-- `exports.verifyJournalPassword` (controller): validate the request,
load the document with the hidden fields selected, check ownership,
reject unprotected entries with a 400, apply the lockout gate (429 with
`ceil((lockoutUntil - now)/3600000)` hours remaining, no state change),
then verify. -/
def verifyJournalPassword (db : Store) (id reqUserId : Nat) (password : String)
    (action : Action) (now : Nat) : VPOutcome × Store :=
  if password = "" then (VPOutcome.noPassword, db)
  else
    match findById db id with
    | none => (VPOutcome.notFound, db)
    | some j =>
      if j.userId ≠ reqUserId then (VPOutcome.forbidden, db)
      else if j.isEncrypted = false then (VPOutcome.notProtected, db)
      else
        match j.passwordLockoutUntil with
        | some t =>
          if now < t then (VPOutcome.locked ((t - now + 3599999) / 3600000) t, db)
          else verifyAfterGate db id j password action now
        | none => verifyAfterGate db id j password action now

/-- The serialized shape of a single journal in a response body.
`encryptionPassword = none` means the field is absent from the JSON
(hidden fields are `select: false` and only appear when a query
explicitly re-selects them); `moodRating = none` models the `null`
written by redaction. -/
structure JView where
  title : String
  content : String
  moodRating : Option Nat
  media : List String
  tags : List String
  isEncrypted : Bool
  encryptionPassword : Option String
  contentLocked : Bool
deriving Repr, DecidableEq

/-- `journal.toObject()` for a document loaded by a default query: the
`select: false` fields are not loaded, so they are absent from the
serialization. -/
def toViewPublic (j : Stored) : JView :=
  { title := j.title, content := j.content, moodRating := some j.moodRating,
    media := j.media, tags := j.tags, isEncrypted := j.isEncrypted,
    encryptionPassword := none, contentLocked := false }

/-- Serialization of a document loaded with
`.select('+encryptionPassword +passwordFailedAttempts +passwordLockoutUntil')`:
the stored hash is loaded, so `res.json` includes it. -/
def toViewWithSecrets (j : Stored) : JView :=
  { toViewPublic j with encryptionPassword := j.encryptionPassword }

/-- The sanitized single-entry view built by `getJournal` when no
password accompanies the request for an encrypted entry. -/
def sanitizeSingleView (j : Stored) : JView :=
  { toViewPublic j with
    title := "[Protected Journal]",
    content := "[Content is password protected]",
    moodRating := none, media := [], tags := [], contentLocked := true }

/-- Outcomes of `GET /api/journal/:id`, one constructor per response
shape of `getJournal` (the 429 case is the error thrown by
`verifyPasswordAndHandleLockout` and re-surfaced by the handler). -/
inductive GetResult
  | notFound
  | forbidden
  | okSanitized (v : JView)
  | lockedOut (remainingMinutes : Nat)
  | invalidPassword
  | ok (v : JView)
deriving Repr, DecidableEq

/-- `exports.getJournal`: load, check ownership/public, and for an
encrypted entry either return the sanitized locked view (no password
supplied) or re-load with the hidden fields selected and run
`verifyPasswordAndHandleLockout`; on success the response serializes
that fully-loaded document. -/
def getJournal (db : Store) (id reqUserId : Nat) (password : Option String)
    (now : Nat) : GetResult × Store :=
  match findById db id with
  | none => (GetResult.notFound, db)
  | some j =>
    if j.userId ≠ reqUserId ∧ j.isPublic = false then (GetResult.forbidden, db)
    else if j.isEncrypted then
      match password with
      | none => (GetResult.okSanitized (sanitizeSingleView j), db)
      | some pw =>
        if pw = "" then (GetResult.okSanitized (sanitizeSingleView j), db)
        else
          match verifyPasswordAndHandleLockout j pw now with
          | LockoutResult.lockedOut m => (GetResult.lockedOut m, db)
          | LockoutResult.done false j2 => (GetResult.invalidPassword, saveTo db id j2)
          | LockoutResult.done true j2 => (GetResult.ok (toViewWithSecrets j2), saveTo db id j2)
    else (GetResult.ok (toViewPublic j), db)

/-- The serialized shape of one element of the `GET /api/journal` list
response (`toObject()` plus the fields the sanitizer overrides;
`moodEmoji` is only added by the sanitizer). -/
structure ListView where
  title : String
  content : String
  moodRating : Option Nat
  moodEmoji : Option String
  media : List String
  tags : List String
  isEncrypted : Bool
deriving Repr, DecidableEq

/-- `journal.toObject()` on the list path. -/
def toListView (j : Stored) : ListView :=
  { title := j.title, content := j.content, moodRating := some j.moodRating,
    moodEmoji := none, media := j.media, tags := j.tags, isEncrypted := j.isEncrypted }

/-- The per-entry sanitizer of `getJournals`: for an encrypted entry,
replace title/content with the fixed placeholders, null out the mood
rating, and empty media and tags; pass unencrypted entries through. -/
def sanitizeListView (v : ListView) : ListView :=
  if v.isEncrypted then
    { v with
      title := "[Protected Journal]",
      content := "[Content is password protected]",
      moodRating := none, moodEmoji := some "🔒", media := [], tags := [] }
  else v

/-- The `journals.map (...)` sanitization step of `getJournals`. -/
def getJournalsSanitized (js : List Stored) : List ListView :=
  js.map (fun j => sanitizeListView (toListView j))

/-- All journals of one user, as matched by the
`{ $match: { user: req.user.id } }` stage of `getJournalStats`. -/
def journalsOf (db : Store) (userId : Nat) : List Stored :=
  (db.filter (fun p => p.2.userId == userId)).map Prod.snd

/-- The `moodStats` aggregation of `getJournalStats`
(`$group` by `$moodRating` with `$sum: 1`): the count a given rating
receives.  No filtering on `isEncrypted` happens in the pipeline. -/
def statsMoodCount (db : Store) (userId rating : Nat) : Nat :=
  (journalsOf db userId).countP (fun j => j.moodRating == rating)

/-- The `averageMood` aggregation of `getJournalStats`
(`$avg: '$moodRating'` over the user's entries, `|| 0` when there are
none).  No filtering on `isEncrypted` happens in the pipeline. -/
def statsAverageMood (db : Store) (userId : Nat) : ℚ :=
  let js := journalsOf db userId
  if js.isEmpty then 0
  else ((js.map (fun j => (j.moodRating : ℚ))).sum) / js.length

/-- `tags ? tags.split(',').map(t => t.trim()) : []` (create path). -/
def splitTags (tags : Option String) : List String :=
  match tags with
  | none => []
  | some s => if s = "" then [] else (s.splitOn ",").map (fun t => t.trim)

/-- Request body of `POST /api/journal` (the fields the engine cares
about). -/
structure CreateBody where
  title : String
  content : String
  moodRating : Nat
  isEncrypted : Bool
  encryptionPassword : Option String
  tags : Option String
  isPublic : Bool
deriving Repr

/-- `exports.createJournal`: build the document from the body (counters
start at their schema defaults) and save it, which runs the `pre('save')`
hashing hook on the freshly assigned password. -/
def createJournal (userId : Nat) (files : List String) (b : CreateBody) : Stored :=
  preSaveHashPassword true
    { userId := userId, title := b.title, content := b.content, media := files,
      moodRating := b.moodRating, isEncrypted := b.isEncrypted,
      encryptionPassword := b.encryptionPassword,
      passwordFailedAttempts := 0, passwordLockoutUntil := none,
      tags := splitTags b.tags, isPublic := b.isPublic }

/-- Request body of `PUT /api/journal/:id`. -/
structure UpdateBody where
  title : String
  content : String
  moodRating : Nat
  isEncrypted : Bool
  encryptionPassword : Option String
  password : Option String
  tags : Option String
  isPublic : Bool
deriving Repr

/-- Outcomes of `PUT /api/journal/:id`. -/
inductive UpdateResult
  | notFound
  | forbidden
  | passwordRequired
  | lockedOut (remainingMinutes : Nat)
  | invalidPassword
  | ok
deriving Repr, DecidableEq

/-- The field assignments of `updateJournal` followed by `save()` (which
hashes a newly supplied `encryptionPassword`).  Fields never assigned by
the handler — in particular the stored hash when no new password is
given, and the lockout counters — keep their stored values. -/
def applyUpdateFields (j : Stored) (files : List String) (b : UpdateBody) : Stored :=
  let withFields :=
    { j with
      title := b.title, content := b.content,
      media := if files.isEmpty then j.media else files,
      moodRating := b.moodRating, isEncrypted := b.isEncrypted,
      tags := (match b.tags with
              | none => j.tags
              | some s => if s = "" then j.tags else (s.splitOn ",").map (fun t => t.trim)),
      isPublic := b.isPublic }
  match b.encryptionPassword with
  | none => withFields
  | some p =>
    if p = "" then withFields
    else preSaveHashPassword true { withFields with encryptionPassword := some p }

/-- `exports.updateJournal`: load, check ownership, and for an encrypted
entry require and verify the current password (via
`verifyPasswordAndHandleLockout` on a copy loaded with the hidden
fields, whose counter updates are saved) before applying the update. -/
def updateJournal (db : Store) (id reqUserId : Nat) (files : List String)
    (b : UpdateBody) (now : Nat) : UpdateResult × Store :=
  match findById db id with
  | none => (UpdateResult.notFound, db)
  | some j =>
    if j.userId ≠ reqUserId then (UpdateResult.forbidden, db)
    else if j.isEncrypted then
      match b.password with
      | none => (UpdateResult.passwordRequired, db)
      | some pw =>
        if pw = "" then (UpdateResult.passwordRequired, db)
        else
          match verifyPasswordAndHandleLockout j pw now with
          | LockoutResult.lockedOut m => (UpdateResult.lockedOut m, db)
          | LockoutResult.done false j2 => (UpdateResult.invalidPassword, saveTo db id j2)
          | LockoutResult.done true j2 =>
            (UpdateResult.ok, saveTo db id (applyUpdateFields j2 files b))
    else (UpdateResult.ok, saveTo db id (applyUpdateFields j files b))

/-! ## Store lemmas -/

theorem findById_saveTo (db : Store) (id : Nat) (x j : Stored)
    (h : findById db id = some j) : findById (saveTo db id x) id = some x := by
  induction db with
  | nil => simp [findById] at h
  | cons p rest ih =>
    obtain ⟨k, v⟩ := p
    by_cases hk : k = id
    · simp [findById, saveTo, hk]
    · simp only [findById, saveTo, hk, if_false, if_neg hk] at h ⊢
      exact ih h

theorem findById_deleteById (db : Store) (id : Nat) :
    findById (deleteById db id) id = none := by
  induction db with
  | nil => rfl
  | cons p rest ih =>
    obtain ⟨k, v⟩ := p
    by_cases hk : k = id
    · simpa [deleteById, hk] using ih
    · simpa [deleteById, findById, hk] using ih

/-! ## Unfolding lemmas for the verify-password gateway -/

/-- When the request is well-formed, the entry exists, is owned by the
caller, is protected, and is not under an active lockout, the endpoint
reduces to the post-gate verification logic. -/
theorem verifyJournalPassword_gate (db : Store) (id uid now : Nat) (j : Stored)
    (pw : String) (a : Action)
    (hpw : ¬ pw = "") (hfind : findById db id = some j) (hown : j.userId = uid)
    (henc : j.isEncrypted = true)
    (hunlocked : ∀ t, j.passwordLockoutUntil = some t → t ≤ now) :
    verifyJournalPassword db id uid pw a now = verifyAfterGate db id j pw a now := by
  unfold verifyJournalPassword
  rw [if_neg hpw, hfind]
  simp only [hown, ne_eq, not_true_eq_false, if_false, henc, Bool.true_eq_false]
  cases hj : j.passwordLockoutUntil with
  | none => simp
  | some t =>
    have ht := hunlocked t hj
    simp [Nat.not_lt.mpr ht]

/-- A mismatch that keeps the counter below the threshold yields
`InvalidPassword (3 - (failedAttempts + 1))` with the incremented
counter persisted. -/
theorem verifyAfterGate_wrong_low (db : Store) (id now : Nat) (j : Stored)
    (pw : String) (a : Action)
    (hw : comparePassword j pw = false) (hlt : j.passwordFailedAttempts + 1 < 3) :
    verifyAfterGate db id j pw a now =
      (VPOutcome.invalidPassword (3 - (j.passwordFailedAttempts + 1)),
       saveTo db id { j with passwordFailedAttempts := j.passwordFailedAttempts + 1 }) := by
  unfold verifyAfterGate
  rw [hw]
  simp [Nat.not_le.mpr hlt]

/-- The mismatch that brings the counter to the threshold yields
`AttemptsExceeded` with `lockoutUntil = now + 3h` persisted. -/
theorem verifyAfterGate_wrong_third (db : Store) (id now : Nat) (j : Stored)
    (pw : String) (a : Action)
    (hw : comparePassword j pw = false) (hge : j.passwordFailedAttempts + 1 ≥ 3) :
    verifyAfterGate db id j pw a now =
      (VPOutcome.attemptsExceeded (now + LOCKOUT_MS),
       saveTo db id { j with passwordFailedAttempts := j.passwordFailedAttempts + 1,
                             passwordLockoutUntil := some (now + LOCKOUT_MS) }) := by
  unfold verifyAfterGate
  rw [hw]
  simp [hge]

/-- A match resets the counters (when any failures were recorded) and
routes the action: `delete` removes the entry in the same call, while
`view`/`edit` leave the store at the counter reset alone. -/
theorem verifyAfterGate_correct (db : Store) (id now : Nat) (j : Stored)
    (pw : String) (a : Action) (hc : comparePassword j pw = true) :
    verifyAfterGate db id j pw a now =
      (let db1 :=
        if j.passwordFailedAttempts > 0 then
          saveTo db id { j with passwordFailedAttempts := 0, passwordLockoutUntil := none }
        else db
       if a = Action.delete then (VPOutcome.success Action.delete true, deleteById db1 id)
       else (VPOutcome.success a false, db1)) := by
  unfold verifyAfterGate
  rw [hc]
  simp

/-- A mismatch never produces the `success` outcome, whatever the
counter state. -/
theorem verifyAfterGate_wrong_not_success (db : Store) (id now : Nat) (j : Stored)
    (pw : String) (a : Action) (hw : comparePassword j pw = false) :
    ((verifyAfterGate db id j pw a now).1).isSuccess = false := by
  unfold verifyAfterGate
  rw [hw]
  by_cases h3 : j.passwordFailedAttempts + 1 ≥ 3 <;> simp [h3, VPOutcome.isSuccess]

/-! ## Claim theorems -/

/-- Fixture: a protected entry of user 7 whose protection password was
`"secret1"` (the stored value is its bcrypt hash), clean counters. -/
def c1Entry : Stored :=
  { userId := 7, title := "Trip", content := "We went hiking", media := [], moodRating := 5,
    isEncrypted := true, encryptionPassword := some (bcryptHash "secret1"),
    passwordFailedAttempts := 0, passwordLockoutUntil := none, tags := [], isPublic := false }

/-- C1: the claim says the stored password hash is never included in any
serialized response — in particular not in the single-entry GET after a
successful password verification.  Evaluating `getJournal` at the
failing input (entry 1 of user 7, correct password `"secret1"`) shows
the response serializes the document loaded with
`.select('+encryptionPassword ...')`, so the `encryptionPassword` bcrypt
hash IS present in the output, contradicting the claim. -/
theorem c1_getJournal_serializes_hash_after_verification :
    (getJournal [(1, c1Entry)] 1 7 (some "secret1") 0).1
      = GetResult.ok (toViewWithSecrets c1Entry) ∧
    (toViewWithSecrets c1Entry).encryptionPassword = some (bcryptHash "secret1") := by
  exact ⟨by decide, by decide⟩

/-- Fixture: an unprotected entry of user 7. -/
def c2Entry : Stored :=
  { userId := 7, title := "Open day", content := "All public", media := [], moodRating := 6,
    isEncrypted := false, encryptionPassword := none,
    passwordFailedAttempts := 0, passwordLockoutUntil := none, tags := [], isPublic := false }

/-- C2 counterexample: the claim says verify-password on an unprotected
entry returns a success outcome.  At the concrete input (unprotected
entry 1, any action) the endpoint instead returns the 400
`notProtected` rejection, which is not a `success` outcome; the store
(hence `failedAttempts` and `lockoutUntil`) is unchanged. -/
theorem c2_unprotected_verify_counterexample :
    verifyJournalPassword [(1, c2Entry)] 1 7 "anything" Action.view 0
      = (VPOutcome.notProtected, [(1, c2Entry)]) ∧
    VPOutcome.notProtected.isSuccess = false := by
  exact ⟨by decide, by decide⟩

/-- C2 amended: for every unprotected entry, a call to the
verify-password endpoint returns the `notProtected` rejection (HTTP
400), not success, and leaves the store — hence `failedAttempts` and
`lockoutUntil` — unchanged. -/
theorem c2_unprotected_verify_notProtected (db : Store) (id uid now : Nat) (j : Stored)
    (pw : String) (a : Action) (hpw : pw ≠ "")
    (hfind : findById db id = some j) (hown : j.userId = uid)
    (henc : j.isEncrypted = false) :
    verifyJournalPassword db id uid pw a now = (VPOutcome.notProtected, db) := by
  unfold verifyJournalPassword
  rw [if_neg hpw, hfind]
  simp [hown, henc]

/-- Witness for C2: the amended theorem applied at the concrete
unprotected entry. -/
theorem c2_witness :
    verifyJournalPassword [(1, c2Entry)] 1 7 "x" Action.edit 5
      = (VPOutcome.notProtected, [(1, c2Entry)]) := by
  exact c2_unprotected_verify_notProtected [(1, c2Entry)] 1 7 5 c2Entry "x" Action.edit
    (by decide) (by decide) (by decide) (by decide)

/-- C4: while `lockoutUntil` is set and strictly in the future, a
verification attempt with any candidate password returns the `Locked`
outcome with a positive remaining duration (`ceil` of the remaining
hours at the endpoint, minutes in the model method), leaves the store
unchanged, and — since the result is the same for every candidate — the
password comparison is never consulted. -/
theorem c4_locked_denies_and_preserves_state (db : Store) (id uid now t : Nat) (j : Stored)
    (pw : String) (a : Action) (hpw : pw ≠ "")
    (hfind : findById db id = some j) (hown : j.userId = uid)
    (henc : j.isEncrypted = true)
    (hlock : j.passwordLockoutUntil = some t) (hfut : now < t) :
    verifyJournalPassword db id uid pw a now
      = (VPOutcome.locked ((t - now + 3599999) / 3600000) t, db) ∧
    0 < (t - now + 3599999) / 3600000 ∧
    verifyPasswordAndHandleLockout j pw now
      = LockoutResult.lockedOut ((t - now + 59999) / 60000) ∧
    0 < (t - now + 59999) / 60000 := by
  refine ⟨?_, ?_, ?_, ?_⟩
  · unfold verifyJournalPassword
    rw [if_neg hpw, hfind]
    simp [hown, henc, hlock, hfut]
  · exact (Nat.le_div_iff_mul_le (by norm_num)).mpr (by omega)
  · unfold verifyPasswordAndHandleLockout
    rw [hlock]
    simp [hfut]
  · exact (Nat.le_div_iff_mul_le (by norm_num)).mpr (by omega)

/-- Fixture: a protected entry of user 7 locked until t = 1000. -/
def c4Entry : Stored :=
  { userId := 7, title := "Sealed", content := "hidden", media := [], moodRating := 4,
    isEncrypted := true, encryptionPassword := some (bcryptHash "secret1"),
    passwordFailedAttempts := 3, passwordLockoutUntil := some 1000, tags := [], isPublic := false }

/-- Witness for C4: the theorem applied at the concrete locked entry,
with the correct password, at `now = 500 < 1000`. -/
theorem c4_witness :
    verifyJournalPassword [(1, c4Entry)] 1 7 "secret1" Action.view 500
      = (VPOutcome.locked ((1000 - 500 + 3599999) / 3600000) 1000, [(1, c4Entry)]) ∧
    0 < (1000 - 500 + 3599999) / 3600000 ∧
    verifyPasswordAndHandleLockout c4Entry "secret1" 500
      = LockoutResult.lockedOut ((1000 - 500 + 59999) / 60000) ∧
    0 < (1000 - 500 + 59999) / 60000 := by
  exact c4_locked_denies_and_preserves_state [(1, c4Entry)] 1 7 500 1000 c4Entry
    "secret1" Action.view (by decide) (by decide) (by decide) (by decide) (by decide) (by decide)

/-- Fixture: a protected entry of user 7 with mood rating 7, never
verified in the request. -/
def c7Entry : Stored :=
  { userId := 7, title := "Private", content := "secret text", media := [], moodRating := 7,
    isEncrypted := true, encryptionPassword := some (bcryptHash "p"),
    passwordFailedAttempts := 0, passwordLockoutUntil := none, tags := [], isPublic := false }

/-- C7: the claim says every read path — including aggregate statistics
— redacts protected entries, with the mood rating excluded from
aggregates.  Evaluating `getJournalStats`'s aggregations at the failing
input (user 7 owning a single protected entry with mood rating 7) shows
the `$match` stage filters only on the user: the protected entry's mood
is counted (`moodStats` gives rating 7 the count 1) and determines the
average (`averageMood = 7`), so the statistics path does not exclude
protected entries. -/
theorem c7_stats_include_protected_mood :
    statsMoodCount [(1, c7Entry)] 7 7 = 1 ∧
    statsAverageMood [(1, c7Entry)] 7 = 7 := by
  constructor
  · decide
  · norm_num [statsAverageMood, journalsOf, c7Entry]

/-- C9: the list-path redaction is idempotent — redacting an
already-redacted entry yields exactly the same placeholder output
(placeholder title and content, null mood rating, lock emoji, empty
media and tags) as redacting once, because the sanitizer keys on the
`isEncrypted` flag, which redaction preserves. -/
theorem c9_sanitize_idempotent (v : ListView) :
    sanitizeListView (sanitizeListView v) = sanitizeListView v := by
  unfold sanitizeListView
  by_cases h : v.isEncrypted <;> simp [h]

/-- C10: comparing any candidate against a record with no stored
`encryptionPassword` returns `false` (rather than failing), so a
verification attempt on an entry flagged as protected but lacking a
hash never produces the success outcome, for any candidate password,
action, and time. -/
theorem c10_missing_hash_never_verifies (db : Store) (id uid now : Nat) (j : Stored)
    (pw : String) (a : Action)
    (hnone : j.encryptionPassword = none) (hfind : findById db id = some j) :
    comparePassword j pw = false ∧
    ((verifyJournalPassword db id uid pw a now).1).isSuccess = false := by
  have hcp : comparePassword j pw = false := by
    unfold comparePassword
    rw [hnone]
  refine ⟨hcp, ?_⟩
  unfold verifyJournalPassword
  by_cases hpw : pw = ""
  · simp [hpw, VPOutcome.isSuccess]
  · rw [if_neg hpw, hfind]
    by_cases hown : j.userId ≠ uid
    · simp [hown, VPOutcome.isSuccess]
    · by_cases henc : j.isEncrypted = false
      · simp [hown, henc, VPOutcome.isSuccess]
      · simp only [hown, if_false, henc, if_neg]
        cases hl : j.passwordLockoutUntil with
        | none => simp [hown, henc, verifyAfterGate_wrong_not_success db id now j pw a hcp]
        | some t =>
          by_cases hnow : now < t
          · simp [hown, henc, hnow, VPOutcome.isSuccess]
          · simp [hown, henc, hnow, verifyAfterGate_wrong_not_success db id now j pw a hcp]

/-- C3: from a clean state (no failures, no lockout), three consecutive
wrong-password calls to verify-password produce exactly
`InvalidPassword 2`, then `InvalidPassword 1`, then `AttemptsExceeded`
with `lockoutUntil = now + 3h`, and each response's updated counters are
persisted in the store the call returns. -/
theorem c3_three_wrong_attempts (db : Store) (id uid n1 n2 n3 : Nat) (j : Stored)
    (w : String) (a : Action) (hw0 : w ≠ "")
    (hfind : findById db id = some j) (hown : j.userId = uid)
    (henc : j.isEncrypted = true) (hclean : j.passwordFailedAttempts = 0)
    (hlock : j.passwordLockoutUntil = none) (hwrong : comparePassword j w = false) :
    (verifyJournalPassword db id uid w a n1).1 = VPOutcome.invalidPassword 2 ∧
    findById (verifyJournalPassword db id uid w a n1).2 id
      = some { j with passwordFailedAttempts := 1 } ∧
    (verifyJournalPassword (verifyJournalPassword db id uid w a n1).2 id uid w a n2).1
      = VPOutcome.invalidPassword 1 ∧
    findById (verifyJournalPassword (verifyJournalPassword db id uid w a n1).2 id uid w a n2).2 id
      = some { j with passwordFailedAttempts := 2 } ∧
    (verifyJournalPassword
      (verifyJournalPassword (verifyJournalPassword db id uid w a n1).2 id uid w a n2).2
      id uid w a n3).1 = VPOutcome.attemptsExceeded (n3 + LOCKOUT_MS) ∧
    findById (verifyJournalPassword
      (verifyJournalPassword (verifyJournalPassword db id uid w a n1).2 id uid w a n2).2
      id uid w a n3).2 id
      = some { j with passwordFailedAttempts := 3,
                      passwordLockoutUntil := some (n3 + LOCKOUT_MS) } := by
  have hnolock1 : ∀ t, j.passwordLockoutUntil = some t → t ≤ n1 := by
    intro t ht
    rw [hlock] at ht
    cases ht
  have h1 : verifyJournalPassword db id uid w a n1
      = (VPOutcome.invalidPassword 2, saveTo db id { j with passwordFailedAttempts := 1 }) := by
    rw [verifyJournalPassword_gate db id uid n1 j w a hw0 hfind hown henc hnolock1,
        verifyAfterGate_wrong_low db id n1 j w a hwrong (by omega)]
    simp [hclean]
  have hf1 : findById (verifyJournalPassword db id uid w a n1).2 id
      = some { j with passwordFailedAttempts := 1 } := by
    rw [h1]
    exact findById_saveTo db id _ j hfind
  have hnolock2 : ∀ t,
      ({ j with passwordFailedAttempts := 1 } : Stored).passwordLockoutUntil = some t → t ≤ n2 := by
    intro t ht
    have ht' : j.passwordLockoutUntil = some t := ht
    rw [hlock] at ht'
    cases ht'
  have hwrong1 : comparePassword { j with passwordFailedAttempts := 1 } w = false := hwrong
  have h2 : verifyJournalPassword (verifyJournalPassword db id uid w a n1).2 id uid w a n2
      = (VPOutcome.invalidPassword 1,
         saveTo (verifyJournalPassword db id uid w a n1).2 id
           { j with passwordFailedAttempts := 2 }) := by
    rw [verifyJournalPassword_gate _ id uid n2 { j with passwordFailedAttempts := 1 } w a
          hw0 hf1 hown henc hnolock2,
        verifyAfterGate_wrong_low _ id n2 { j with passwordFailedAttempts := 1 } w a
          hwrong1 (by show (1 : Nat) + 1 < 3; norm_num)]
    simp
  have hf2 : findById
      (verifyJournalPassword (verifyJournalPassword db id uid w a n1).2 id uid w a n2).2 id
      = some { j with passwordFailedAttempts := 2 } := by
    rw [h2]
    exact findById_saveTo _ id _ _ hf1
  have hnolock3 : ∀ t,
      ({ j with passwordFailedAttempts := 2 } : Stored).passwordLockoutUntil = some t → t ≤ n3 := by
    intro t ht
    have ht' : j.passwordLockoutUntil = some t := ht
    rw [hlock] at ht'
    cases ht'
  have hwrong2 : comparePassword { j with passwordFailedAttempts := 2 } w = false := hwrong
  have h3 : verifyJournalPassword
      (verifyJournalPassword (verifyJournalPassword db id uid w a n1).2 id uid w a n2).2
      id uid w a n3
      = (VPOutcome.attemptsExceeded (n3 + LOCKOUT_MS),
         saveTo (verifyJournalPassword (verifyJournalPassword db id uid w a n1).2 id uid w a n2).2
           id { j with passwordFailedAttempts := 3,
                       passwordLockoutUntil := some (n3 + LOCKOUT_MS) }) := by
    rw [verifyJournalPassword_gate _ id uid n3 { j with passwordFailedAttempts := 2 } w a
          hw0 hf2 hown henc hnolock3,
        verifyAfterGate_wrong_third _ id n3 { j with passwordFailedAttempts := 2 } w a
          hwrong2 (by show (2 : Nat) + 1 >= 3; norm_num)]
  refine ⟨by rw [h1], hf1, by rw [h2], hf2, by rw [h3], ?_⟩
  rw [h3]
  exact findById_saveTo _ id _ _ hf2

/-- Fixture: a clean protected entry of user 7 (password `"secret1"`,
no failures, no lockout). -/
def c3Entry : Stored :=
  { userId := 7, title := "Diary", content := "hidden text", media := [], moodRating := 8,
    isEncrypted := true, encryptionPassword := some (bcryptHash "secret1"),
    passwordFailedAttempts := 0, passwordLockoutUntil := none, tags := [], isPublic := false }

/-- Witness for C3: the theorem applied at the concrete clean entry with
the wrong password `"wrong"` at times 10, 20, 30. -/
theorem c3_witness :
    (verifyJournalPassword [(1, c3Entry)] 1 7 "wrong" Action.view 10).1
      = VPOutcome.invalidPassword 2 ∧
    findById (verifyJournalPassword [(1, c3Entry)] 1 7 "wrong" Action.view 10).2 1
      = some { c3Entry with passwordFailedAttempts := 1 } ∧
    (verifyJournalPassword (verifyJournalPassword [(1, c3Entry)] 1 7 "wrong" Action.view 10).2
      1 7 "wrong" Action.view 20).1 = VPOutcome.invalidPassword 1 ∧
    findById (verifyJournalPassword (verifyJournalPassword [(1, c3Entry)] 1 7 "wrong" Action.view 10).2
      1 7 "wrong" Action.view 20).2 1 = some { c3Entry with passwordFailedAttempts := 2 } ∧
    (verifyJournalPassword
      (verifyJournalPassword (verifyJournalPassword [(1, c3Entry)] 1 7 "wrong" Action.view 10).2
        1 7 "wrong" Action.view 20).2 1 7 "wrong" Action.view 30).1
      = VPOutcome.attemptsExceeded (30 + LOCKOUT_MS) ∧
    findById (verifyJournalPassword
      (verifyJournalPassword (verifyJournalPassword [(1, c3Entry)] 1 7 "wrong" Action.view 10).2
        1 7 "wrong" Action.view 20).2 1 7 "wrong" Action.view 30).2 1
      = some { c3Entry with passwordFailedAttempts := 3,
                            passwordLockoutUntil := some (30 + LOCKOUT_MS) } := by
  exact c3_three_wrong_attempts [(1, c3Entry)] 1 7 10 20 30 c3Entry "wrong" Action.view
    (by decide) (by decide) (by decide) (by decide) (by decide) (by decide) (by decide)

/-- Fixture: a protected entry of user 7 that reached the lockout
threshold (3 failures) and was locked until t = 100. -/
def c5Entry : Stored :=
  { userId := 7, title := "Sealed", content := "hidden", media := [], moodRating := 4,
    isEncrypted := true, encryptionPassword := some (bcryptHash "secret1"),
    passwordFailedAttempts := 3, passwordLockoutUntil := some 100, tags := [], isPublic := false }

/-- C5 counterexample: the claim says a single wrong password after
lockout expiry yields `InvalidPassword 2` (counter restarted from 0).
At the concrete input (lockout expired at 100, now = 200, wrong
password, stored `failedAttempts = 3` untouched by expiry) the endpoint
instead increments the counter to 4 and immediately re-locks, returning
`AttemptsExceeded` with a fresh 3-hour lockout. -/
theorem c5_wrong_after_expiry_counterexample :
    (verifyJournalPassword [(1, c5Entry)] 1 7 "wrong" Action.view 200).1
      = VPOutcome.attemptsExceeded (200 + LOCKOUT_MS) ∧
    (verifyJournalPassword [(1, c5Entry)] 1 7 "wrong" Action.view 200).1
      ≠ VPOutcome.invalidPassword 2 ∧
    findById (verifyJournalPassword [(1, c5Entry)] 1 7 "wrong" Action.view 200).2 1
      = some { c5Entry with passwordFailedAttempts := 4,
                            passwordLockoutUntil := some (200 + LOCKOUT_MS) } := by
  exact ⟨by decide, by decide, by decide⟩

/-- C5 amended: after `lockoutUntil` passes, a single correct password
succeeds, resets `failedAttempts` to 0 and clears `lockoutUntil`; but a
single wrong password after expiry increments the still-stored counter
from 3 to 4 and immediately re-locks for 3 hours with
`AttemptsExceeded` — the failure count does not restart after a lockout
cycle. -/
theorem c5_after_expiry_behavior (db : Store) (id uid now t : Nat) (j : Stored)
    (p w : String) (a : Action) (hp : p ≠ "") (hw : w ≠ "") (ha : a ≠ Action.delete)
    (hfind : findById db id = some j) (hown : j.userId = uid)
    (henc : j.isEncrypted = true) (hatt : j.passwordFailedAttempts = 3)
    (hlock : j.passwordLockoutUntil = some t) (hexp : t ≤ now)
    (hpc : comparePassword j p = true) (hwc : comparePassword j w = false) :
    ((verifyJournalPassword db id uid p a now).1 = VPOutcome.success a false ∧
     findById (verifyJournalPassword db id uid p a now).2 id
       = some { j with passwordFailedAttempts := 0, passwordLockoutUntil := none }) ∧
    ((verifyJournalPassword db id uid w a now).1
        = VPOutcome.attemptsExceeded (now + LOCKOUT_MS) ∧
     findById (verifyJournalPassword db id uid w a now).2 id
       = some { j with passwordFailedAttempts := 4,
                       passwordLockoutUntil := some (now + LOCKOUT_MS) }) := by
  have hunlocked : ∀ s, j.passwordLockoutUntil = some s → s ≤ now := by
    intro s hs
    rw [hlock] at hs
    cases hs
    exact hexp
  constructor
  · have hc : verifyJournalPassword db id uid p a now
        = (VPOutcome.success a false,
           saveTo db id { j with passwordFailedAttempts := 0, passwordLockoutUntil := none }) := by
      rw [verifyJournalPassword_gate db id uid now j p a hp hfind hown henc hunlocked,
          verifyAfterGate_correct db id now j p a hpc]
      simp [hatt, ha]
    rw [hc]
    exact ⟨rfl, findById_saveTo db id _ j hfind⟩
  · have hc : verifyJournalPassword db id uid w a now
        = (VPOutcome.attemptsExceeded (now + LOCKOUT_MS),
           saveTo db id { j with passwordFailedAttempts := 4,
                                 passwordLockoutUntil := some (now + LOCKOUT_MS) }) := by
      rw [verifyJournalPassword_gate db id uid now j w a hw hfind hown henc hunlocked,
          verifyAfterGate_wrong_third db id now j w a hwc (by omega)]
      simp [hatt]
    rw [hc]
    exact ⟨rfl, findById_saveTo db id _ j hfind⟩

/-- Witness for C5: the amended theorem applied at the concrete entry
(lockout expired at 100, now = 200, password `"secret1"`). -/
theorem c5_witness :
    ((verifyJournalPassword [(1, c5Entry)] 1 7 "secret1" Action.view 200).1
        = VPOutcome.success Action.view false ∧
     findById (verifyJournalPassword [(1, c5Entry)] 1 7 "secret1" Action.view 200).2 1
       = some { c5Entry with passwordFailedAttempts := 0, passwordLockoutUntil := none }) ∧
    ((verifyJournalPassword [(1, c5Entry)] 1 7 "wrong" Action.view 200).1
        = VPOutcome.attemptsExceeded (200 + LOCKOUT_MS) ∧
     findById (verifyJournalPassword [(1, c5Entry)] 1 7 "wrong" Action.view 200).2 1
       = some { c5Entry with passwordFailedAttempts := 4,
                             passwordLockoutUntil := some (200 + LOCKOUT_MS) }) := by
  exact c5_after_expiry_behavior [(1, c5Entry)] 1 7 200 100 c5Entry "secret1" "wrong"
    Action.view (by decide) (by decide) (by decide) (by decide) (by decide) (by decide)
    (by decide) (by decide) (by decide) (by decide) (by decide)

/-- C6: on a successful verification the routed effect is fused with the
response: for `action = delete` the entry is removed from the store by
the same call that recorded the success, while for `view` and `edit`
the call returns the success outcome and the store differs from the
input only by the counter reset (no other side effect on the entry). -/
theorem c6_action_routing (db : Store) (id uid now : Nat) (j : Stored) (pw : String)
    (hpw : pw ≠ "") (hfind : findById db id = some j) (hown : j.userId = uid)
    (henc : j.isEncrypted = true)
    (hunlocked : ∀ t, j.passwordLockoutUntil = some t → t ≤ now)
    (hpc : comparePassword j pw = true) :
    ((verifyJournalPassword db id uid pw Action.delete now).1
        = VPOutcome.success Action.delete true ∧
     findById (verifyJournalPassword db id uid pw Action.delete now).2 id = none) ∧
    verifyJournalPassword db id uid pw Action.view now
      = (VPOutcome.success Action.view false,
         if j.passwordFailedAttempts > 0 then
           saveTo db id { j with passwordFailedAttempts := 0, passwordLockoutUntil := none }
         else db) ∧
    verifyJournalPassword db id uid pw Action.edit now
      = (VPOutcome.success Action.edit false,
         if j.passwordFailedAttempts > 0 then
           saveTo db id { j with passwordFailedAttempts := 0, passwordLockoutUntil := none }
         else db) := by
  refine ⟨⟨?_, ?_⟩, ?_, ?_⟩
  · rw [verifyJournalPassword_gate db id uid now j pw Action.delete hpw hfind hown henc hunlocked,
        verifyAfterGate_correct db id now j pw Action.delete hpc]
    simp
  · rw [verifyJournalPassword_gate db id uid now j pw Action.delete hpw hfind hown henc hunlocked,
        verifyAfterGate_correct db id now j pw Action.delete hpc]
    simp [findById_deleteById]
  · rw [verifyJournalPassword_gate db id uid now j pw Action.view hpw hfind hown henc hunlocked,
        verifyAfterGate_correct db id now j pw Action.view hpc]
    simp
  · rw [verifyJournalPassword_gate db id uid now j pw Action.edit hpw hfind hown henc hunlocked,
        verifyAfterGate_correct db id now j pw Action.edit hpc]
    simp

/-- Fixture: a clean protected entry of user 7 for the action-routing
witness. -/
def c6Entry : Stored :=
  { userId := 7, title := "Notes", content := "text", media := [], moodRating := 6,
    isEncrypted := true, encryptionPassword := some (bcryptHash "secret1"),
    passwordFailedAttempts := 0, passwordLockoutUntil := none, tags := [], isPublic := false }

/-- Witness for C6: the theorem applied at the concrete protected entry
with the correct password. -/
theorem c6_witness :
    ((verifyJournalPassword [(1, c6Entry)] 1 7 "secret1" Action.delete 0).1
        = VPOutcome.success Action.delete true ∧
     findById (verifyJournalPassword [(1, c6Entry)] 1 7 "secret1" Action.delete 0).2 1 = none) ∧
    verifyJournalPassword [(1, c6Entry)] 1 7 "secret1" Action.view 0
      = (VPOutcome.success Action.view false,
         if c6Entry.passwordFailedAttempts > 0 then
           saveTo [(1, c6Entry)] 1 { c6Entry with passwordFailedAttempts := 0,
                                                  passwordLockoutUntil := none }
         else [(1, c6Entry)]) ∧
    verifyJournalPassword [(1, c6Entry)] 1 7 "secret1" Action.edit 0
      = (VPOutcome.success Action.edit false,
         if c6Entry.passwordFailedAttempts > 0 then
           saveTo [(1, c6Entry)] 1 { c6Entry with passwordFailedAttempts := 0,
                                                  passwordLockoutUntil := none }
         else [(1, c6Entry)]) := by
  exact c6_action_routing [(1, c6Entry)] 1 7 0 c6Entry "secret1"
    (by decide) (by decide) (by decide) (by decide)
    (by intro t ht; cases ht) (by decide)

/-- Fixture: a protected entry of user 7 (hash of `"secret1"` stored). -/
def c8Entry : Stored :=
  { userId := 7, title := "Old", content := "was protected", media := [], moodRating := 5,
    isEncrypted := true, encryptionPassword := some (bcryptHash "secret1"),
    passwordFailedAttempts := 0, passwordLockoutUntil := none, tags := [], isPublic := false }

/-- Fixture: an update body switching the entry to unprotected, with the
correct current password and no new protection password. -/
def c8Body : UpdateBody :=
  { title := "New", content := "now open", moodRating := 5, isEncrypted := false,
    encryptionPassword := none, password := some "secret1", tags := none, isPublic := false }

/-- C8 counterexample: the claim says `isProtected = false` implies the
hash is absent, and that updating a protected entry to unprotected
re-establishes that state.  At the concrete input (protected entry
updated to `isEncrypted = false` after a successful password check) the
stored record ends with `isEncrypted = false` while the bcrypt hash is
still present — the update path never clears `encryptionPassword`. -/
theorem c8_unprotect_keeps_hash_counterexample :
    (updateJournal [(1, c8Entry)] 1 7 [] c8Body 0).1 = UpdateResult.ok ∧
    (findById (updateJournal [(1, c8Entry)] 1 7 [] c8Body 0).2 1).map
        (fun j => (j.isEncrypted, j.encryptionPassword))
      = some (false, some (bcryptHash "secret1")) := by
  exact ⟨by decide, by decide⟩

/-- C8 amended: creating an entry as unprotected with no protection
password supplied establishes the invariant state (hash absent,
`failedAttempts = 0`, `lockoutUntil` absent); but the update path — in
particular switching a protected entry to unprotected — merely preserves
the stored hash and counters rather than clearing them, so the invariant
is not re-established by un-protecting. -/
theorem c8_amended_unprotected_state (uid : Nat) (files : List String) (b : CreateBody)
    (j : Stored) (files2 : List String) (u : UpdateBody)
    (hb : b.encryptionPassword = none) (hu : u.encryptionPassword = none) :
    ((createJournal uid files b).encryptionPassword = none ∧
     (createJournal uid files b).passwordFailedAttempts = 0 ∧
     (createJournal uid files b).passwordLockoutUntil = none) ∧
    ((applyUpdateFields j files2 u).encryptionPassword = j.encryptionPassword ∧
     (applyUpdateFields j files2 u).passwordFailedAttempts = j.passwordFailedAttempts ∧
     (applyUpdateFields j files2 u).passwordLockoutUntil = j.passwordLockoutUntil) := by
  constructor
  · unfold createJournal preSaveHashPassword
    simp [hb]
  · unfold applyUpdateFields
    simp [hu]

/-- Witness for C8: the amended theorem applied at a concrete
unprotected create body and the concrete unprotecting update body. -/
theorem c8_witness :
    ((createJournal 7 []
        { title := "Open", content := "plain", moodRating := 5, isEncrypted := false,
          encryptionPassword := none, tags := none, isPublic := false }).encryptionPassword
        = none ∧
     (createJournal 7 []
        { title := "Open", content := "plain", moodRating := 5, isEncrypted := false,
          encryptionPassword := none, tags := none, isPublic := false }).passwordFailedAttempts
        = 0 ∧
     (createJournal 7 []
        { title := "Open", content := "plain", moodRating := 5, isEncrypted := false,
          encryptionPassword := none, tags := none, isPublic := false }).passwordLockoutUntil
        = none) ∧
    ((applyUpdateFields c8Entry [] c8Body).encryptionPassword = c8Entry.encryptionPassword ∧
     (applyUpdateFields c8Entry [] c8Body).passwordFailedAttempts
        = c8Entry.passwordFailedAttempts ∧
     (applyUpdateFields c8Entry [] c8Body).passwordLockoutUntil
        = c8Entry.passwordLockoutUntil) := by
  exact c8_amended_unprotected_state 7 []
    { title := "Open", content := "plain", moodRating := 5, isEncrypted := false,
      encryptionPassword := none, tags := none, isPublic := false }
    c8Entry [] c8Body (by decide) (by decide)

/-- Fixture: an entry flagged as protected whose stored hash is absent. -/
def c10Entry : Stored :=
  { userId := 7, title := "Broken", content := "no hash", media := [], moodRating := 3,
    isEncrypted := true, encryptionPassword := none,
    passwordFailedAttempts := 0, passwordLockoutUntil := none, tags := [], isPublic := false }

/-- Witness for C10: the theorem applied at the concrete hash-less
protected entry. -/
theorem c10_witness :
    comparePassword c10Entry "guess" = false ∧
    ((verifyJournalPassword [(1, c10Entry)] 1 7 "guess" Action.view 0).1).isSuccess = false := by
  exact c10_missing_hash_never_verifies [(1, c10Entry)] 1 7 0 c10Entry "guess" Action.view
    (by decide) (by decide)

end DigiDiary
